import Mathlib

/-!
Verification of the Parent-AI Tutor Flask backend (`app.py`).

The development shallowly embeds the request-handling code of `app.py`:

* JSON values arriving in the request body are modelled by `JVal`;
  Python numbers (`int` and `float` alike) are modelled as exact
  fractions `JNum` (numerator over denominator), which is faithful for
  every behaviour the handler exercises: `int(x)` on a Python number
  truncates toward zero, which on a fraction is truncating division.
* `pyStrip` models the Python method `str.strip()` (both-ends removal
  of the ASCII whitespace characters Python strips).
* `parsePyIntStr` models `int(s)` on a string: optional surrounding
  whitespace, an optional sign, then at least one decimal digit.
* `get_ai_response` models the completion adapter.  The outcome of the
  single outbound OpenAI call is an oracle parameter `Upstream`
  (success with some text, authentication error, or any other error),
  and the function returns both the list of outbound calls it attempted
  and either the returned text or the message of the `ValueError` it
  raises.
* `chat` models the body of the `POST /chat` handler.  Its result is
  `Except PyExn (HttpReply × List CompletionRequest)`: a `.error` is an
  exception escaping the handler uncaught, while `.ok` carries the HTTP
  reply (status code and JSON body) together with the outbound calls
  attempted while serving the request.
-/

namespace ParentAITutor

/-- A Python/JSON number, kept as an exact fraction `num / den`.
A JSON integer `n` is `⟨n, 1⟩`; a decimal literal such as `3.5` is
`⟨35, 10⟩` (equivalently `⟨7, 2⟩`). -/
structure JNum where
  num : Int
  den : Nat
deriving DecidableEq, Repr

/-- The JSON values that can populate a field of the request body:
`null`, a string, or a number. -/
inductive JVal where
  | null : JVal
  | str : String → JVal
  | num : JNum → JVal
deriving DecidableEq, Repr

/-- An exception escaping the handler uncaught.  The only one the
handler can raise is `AttributeError`, from calling `.strip()` on a
non-string value. -/
inductive PyExn where
  | attributeError : PyExn
deriving DecidableEq, Repr

/-- The characters removed by the Python method `str.strip()`
(ASCII range). -/
def pyIsSpace (c : Char) : Bool :=
  c = ' ' || c = '\t' || c = '\n' || c = '\r' || c = '\x0b' || c = '\x0c'

/-- The Python expression `s.strip()`: remove leading and trailing
whitespace from a string. -/
def pyStrip (s : String) : String :=
  ⟨((s.data.dropWhile pyIsSpace).reverse.dropWhile pyIsSpace).reverse⟩

/-- `v.strip()` on an arbitrary JSON value: succeeds only on strings,
raises `AttributeError` otherwise. -/
def pyStripVal : JVal → Except PyExn String
  | .str s => .ok (pyStrip s)
  | _ => .error .attributeError

/-- Numeric value of a list of decimal digit characters. -/
def digitsVal (l : List Char) : Nat :=
  l.foldl (fun n c => 10 * n + (c.toNat - 48)) 0

/-- The Python builtin `int(s)` on a string: optional surrounding
whitespace, an optional `+`/`-` sign, then one or more decimal digits;
anything else raises `ValueError` (here: `none`). -/
def parsePyIntStr (s : String) : Option Int :=
  match (pyStrip s).data with
  | [] => none
  | c :: rest =>
    let signed : Int × List Char :=
      if c = '-' then (-1, rest) else if c = '+' then (1, rest) else (1, c :: rest)
    if signed.2 ≠ [] ∧ signed.2.all Char.isDigit then
      some (signed.1 * Int.ofNat (digitsVal signed.2))
    else none

/-- The Python builtin `int(x)` on a number: truncation toward zero. -/
def pyTruncNum (x : JNum) : Int := Int.tdiv x.num (Int.ofNat x.den)

/-- `int(age)` where `age` is `data.get("age")`: a missing key yields
Python `None` and `int(None)` raises `TypeError`; `int` of a string
parses it strictly; `int` of a number truncates toward zero.  `none`
stands for a raised `TypeError` or `ValueError` (the handler catches
both identically). -/
def pyIntVal : Option JVal → Option Int
  | none => none
  | some .null => none
  | some (.str s) => parsePyIntStr s
  | some (.num x) => some (pyTruncNum x)

/-- One message of the chat exchange sent to OpenAI. -/
structure ChatMessage where
  role : String
  content : String
deriving DecidableEq, Repr

/-- One outbound chat-completion request, as built by
`get_ai_response`: model name, messages, and the fixed sampling
parameters.  The temperature `0.7` is kept as the exact fraction
`⟨7, 10⟩`. -/
structure CompletionRequest where
  model : String
  messages : List ChatMessage
  temperature : JNum
  max_tokens : Nat
deriving DecidableEq, Repr

/-- Outcome of the outbound OpenAI call, supplied as an oracle: the
call returns text, raises an authentication error, or raises any other
exception (network failure, malformed response, ...). -/
inductive Upstream where
  | success : String → Upstream
  | authError : String → Upstream
  | apiError : String → Upstream
deriving DecidableEq, Repr

/-- The system prompt of `get_ai_response`, with the age of the child
interpolated by `str.format`. -/
def system_prompt (age : Int) : String :=
  "You are an AI tutor helping parents explain artificial intelligence and technology " ++
  "concepts to their child. The child is " ++ toString age ++ " years old. " ++
  "Speak directly to the parent and provide simple, age‑appropriate explanations, " ++
  "analogies and suggestions. Avoid jargon."

/-- The single outbound request `get_ai_response` builds for a given
message and age: the two-turn system/user exchange with model
`gpt-3.5-turbo`, temperature `0.7` and `max_tokens` 512. -/
def completionRequestFor (message : String) (age : Int) : CompletionRequest :=
  { model := "gpt-3.5-turbo"
    messages := [⟨"system", system_prompt age⟩, ⟨"user", message⟩]
    temperature := ⟨7, 10⟩
    max_tokens := 512 }

/-- Result of `get_ai_response`: the outbound calls attempted, and
either the assistant text (returned) or the message of the raised
`ValueError`. -/
structure AdapterResult where
  calls : List CompletionRequest
  result : Except String String
deriving Repr

/-- `get_ai_response(message, age)` of `app.py`, parametrised by the
configured API key (`OPENAI_API_KEY`, `none` when unset) and the
upstream oracle.  With no key it raises
`ValueError("OpenAI API key is not configured.")` before any call;
otherwise it attempts exactly one call and either returns the stripped
content or converts the upstream failure into one of two fixed
`ValueError` messages. -/
def get_ai_response (apiKey : Option String) (up : Upstream)
    (message : String) (age : Int) : AdapterResult :=
  match apiKey with
  | none => ⟨[], .error "OpenAI API key is not configured."⟩
  | some _ =>
    let req := completionRequestFor message age
    match up with
    | .success content => ⟨[req], .ok (pyStrip content)⟩
    | .authError _ =>
        ⟨[req], .error "Invalid OpenAI API key. Please check your configuration."⟩
    | .apiError _ =>
        ⟨[req], .error "An error occurred while contacting OpenAI. Please try again later."⟩

/-- The JSON body of the HTTP reply: a `response` field or an `error`
field. -/
inductive RespBody where
  | response : String → RespBody
  | error : String → RespBody
deriving DecidableEq, Repr

/-- An HTTP reply of the `/chat` handler: status code and JSON body. -/
structure HttpReply where
  status : Nat
  body : RespBody
deriving DecidableEq, Repr

/-- The `POST /chat` handler of `app.py`.  `body` is the parsed JSON
object: `none` models a malformed or absent body (for which
`request.get_json(silent=True)` yields `None`, turned into the empty
mapping by `or`), and `some data` a JSON object with fields `data`.
The result is an uncaught exception, or the HTTP reply paired with the
outbound calls attempted. -/
def chat (apiKey : Option String) (up : Upstream)
    (body : Option (List (String × JVal))) :
    Except PyExn (HttpReply × List CompletionRequest) :=
  let data := body.getD []
  match pyStripVal ((data.lookup "message").getD (.str "")) with
  | .error e => .error e
  | .ok message =>
    if message = "" then
      .ok (⟨400, .error "No message provided."⟩, [])
    else
      match pyIntVal (data.lookup "age") with
      | none => .ok (⟨400, .error "Invalid age provided."⟩, [])
      | some age_int =>
        if age_int < 1 ∨ age_int > 18 then
          .ok (⟨400, .error "Please enter an age between 1 and 18."⟩, [])
        else
          let r := get_ai_response apiKey up message age_int
          match r.result with
          | .ok reply => .ok (⟨200, .response reply⟩, r.calls)
          | .error ve => .ok (⟨500, .error ve⟩, r.calls)

/-- Helper: on a valid request (message field holding a string that is
non-empty once stripped, age field converting to an integer in
`[1, 18]`), the handler reaches the adapter and wraps its outcome:
`200` with the response text when the adapter returns, `500` with the
error message when the adapter raises `ValueError`. -/
theorem chat_valid_request_adapter_outcome (apiKey : Option String) (up : Upstream)
    (data : List (String × JVal)) (m : String) (a : Int)
    (hm : (data.lookup "message").getD (.str "") = .str m)
    (hne : pyStrip m ≠ "")
    (ha : pyIntVal (data.lookup "age") = some a)
    (h1 : 1 ≤ a) (h2 : a ≤ 18) :
    chat apiKey up (some data) =
      match (get_ai_response apiKey up (pyStrip m) a).result with
      | .ok reply =>
          .ok (⟨200, .response reply⟩, (get_ai_response apiKey up (pyStrip m) a).calls)
      | .error ve =>
          .ok (⟨500, .error ve⟩, (get_ai_response apiKey up (pyStrip m) a).calls) := by
  simp only [chat, Option.getD_some, hm, pyStripVal, ha]
  rw [if_neg hne, if_neg (by omega)]

/-- Claim C1, counterexample: a fully valid request (non-empty message,
age 10) with no API key configured gets HTTP 500, not 200: the adapter
raises `ValueError` and `chat` propagates it as a 500 error body, so
validation errors are not the only non-200 responses. -/
theorem chat_valid_request_not_always_200 :
    chat none (.success "ok")
        (some [("message", JVal.str "What is AI?"), ("age", JVal.num ⟨10, 1⟩)]) =
      .ok (⟨500, .error "OpenAI API key is not configured."⟩, []) ∧
    (500 : Nat) ≠ 200 := ⟨rfl, by decide⟩

/-- Claim C1, amended: the adapter is not infallible; it raises
`ValueError` carrying one of three fixed messages, and `chat` absorbs
exactly those into an HTTP 500 error body.  Hence every valid request
yields either `200` with a response body or `500` with one of the three
fixed adapter messages as the error body; no exception escapes on this
path and no other error detail leaks. -/
theorem chat_adapter_failure_becomes_500_fixed_message (apiKey : Option String)
    (up : Upstream) (data : List (String × JVal)) (m : String) (a : Int)
    (hm : (data.lookup "message").getD (.str "") = .str m)
    (hne : pyStrip m ≠ "")
    (ha : pyIntVal (data.lookup "age") = some a)
    (h1 : 1 ≤ a) (h2 : a ≤ 18) :
    ∃ r : HttpReply × List CompletionRequest,
      chat apiKey up (some data) = .ok r ∧
      (r.1.status = 200 ∨
        (r.1.status = 500 ∧
          (r.1.body = .error "OpenAI API key is not configured." ∨
           r.1.body = .error "Invalid OpenAI API key. Please check your configuration." ∨
           r.1.body =
             .error "An error occurred while contacting OpenAI. Please try again later."))) := by
  have h := chat_valid_request_adapter_outcome apiKey up data m a hm hne ha h1 h2
  cases apiKey with
  | none => exact ⟨_, h.trans rfl, Or.inr ⟨rfl, Or.inl rfl⟩⟩
  | some k =>
    cases up with
    | success t => exact ⟨_, h.trans rfl, Or.inl rfl⟩
    | authError d => exact ⟨_, h.trans rfl, Or.inr ⟨rfl, Or.inr (Or.inl rfl)⟩⟩
    | apiError d => exact ⟨_, h.trans rfl, Or.inr ⟨rfl, Or.inr (Or.inr rfl)⟩⟩

/-- Witness for the amended claim C1, at the valid request with message
`hi`, age 7, a configured key and a failing upstream call. -/
theorem chat_adapter_failure_becomes_500_fixed_message_witness :
    ((([("message", JVal.str "hi"), ("age", JVal.num ⟨7, 1⟩)]).lookup "message").getD
        (.str "") = .str "hi") ∧
    pyStrip "hi" ≠ "" ∧
    pyIntVal (([("message", JVal.str "hi"), ("age", JVal.num ⟨7, 1⟩)]).lookup "age") =
      some 7 ∧
    (1 : Int) ≤ 7 ∧ (7 : Int) ≤ 18 ∧
    (∃ r : HttpReply × List CompletionRequest,
      chat (some "k") (.apiError "network down")
          (some [("message", JVal.str "hi"), ("age", JVal.num ⟨7, 1⟩)]) = .ok r ∧
      (r.1.status = 200 ∨
        (r.1.status = 500 ∧
          (r.1.body = .error "OpenAI API key is not configured." ∨
           r.1.body = .error "Invalid OpenAI API key. Please check your configuration." ∨
           r.1.body =
             .error "An error occurred while contacting OpenAI. Please try again later.")))) :=
  ⟨rfl, by decide, by decide, by decide, by decide,
    chat_adapter_failure_becomes_500_fixed_message (some "k") (.apiError "network down")
      [("message", JVal.str "hi"), ("age", JVal.num ⟨7, 1⟩)] "hi" 7 rfl (by decide)
      (by decide) (by decide) (by decide)⟩

/-- Claim C2, counterexample: with no key configured, the valid request
with message `hi` and age 7 is answered with HTTP 500 and an error
body, not HTTP 200 with a fallback text in the response field. -/
theorem chat_no_key_not_200_fallback :
    chat none (.success "irrelevant")
        (some [("message", JVal.str "hi"), ("age", JVal.num ⟨7, 1⟩)]) =
      .ok (⟨500, .error "OpenAI API key is not configured."⟩, []) ∧
    (500 : Nat) ≠ 200 ∧
    (RespBody.error "OpenAI API key is not configured." ≠
      RespBody.response "OpenAI API key is not configured.") := ⟨rfl, by decide, by decide⟩

/-- Claim C2, amended: with no key configured, every valid request is
answered with HTTP 500 and the error body
`OpenAI API key is not configured.` (the message of the `ValueError`
the adapter raises before any network activity), and the list of
outbound calls attempted is empty. -/
theorem chat_no_key_500_no_outbound_call (up : Upstream)
    (data : List (String × JVal)) (m : String) (a : Int)
    (hm : (data.lookup "message").getD (.str "") = .str m)
    (hne : pyStrip m ≠ "")
    (ha : pyIntVal (data.lookup "age") = some a)
    (h1 : 1 ≤ a) (h2 : a ≤ 18) :
    chat none up (some data) =
      .ok (⟨500, .error "OpenAI API key is not configured."⟩, []) :=
  (chat_valid_request_adapter_outcome none up data m a hm hne ha h1 h2).trans rfl

/-- Witness for the amended claim C2, at the valid request with message
`What is AI?` and boundary age 18. -/
theorem chat_no_key_500_no_outbound_call_witness :
    ((([("message", JVal.str "What is AI?"), ("age", JVal.num ⟨18, 1⟩)]).lookup
        "message").getD (.str "") = .str "What is AI?") ∧
    pyStrip "What is AI?" ≠ "" ∧
    pyIntVal (([("message", JVal.str "What is AI?"), ("age", JVal.num ⟨18, 1⟩)]).lookup
      "age") = some 18 ∧
    (1 : Int) ≤ 18 ∧ (18 : Int) ≤ 18 ∧
    chat none (.success "never used")
        (some [("message", JVal.str "What is AI?"), ("age", JVal.num ⟨18, 1⟩)]) =
      .ok (⟨500, .error "OpenAI API key is not configured."⟩, []) :=
  ⟨rfl, by decide, by decide, by decide, by decide,
    chat_no_key_500_no_outbound_call (.success "never used")
      [("message", JVal.str "What is AI?"), ("age", JVal.num ⟨18, 1⟩)] "What is AI?" 18
      rfl (by decide) (by decide) (by decide) (by decide)⟩

/-- Claim C3: any request whose message field is missing or holds a
string that is empty after stripping is rejected with HTTP 400 and the
error `No message provided.`, regardless of the age field, the
configuration and the upstream oracle; no outbound call is made. -/
theorem chat_blank_message_400 (apiKey : Option String) (up : Upstream)
    (data : List (String × JVal)) (m : String)
    (hm : (data.lookup "message").getD (.str "") = .str m)
    (hblank : pyStrip m = "") :
    chat apiKey up (some data) = .ok (⟨400, .error "No message provided."⟩, []) := by
  simp only [chat, Option.getD_some, hm, pyStripVal, hblank, if_true]

/-- Witness for claim C3, at a whitespace-only message with a
non-numeric age field. -/
theorem chat_blank_message_400_witness :
    ((([("message", JVal.str "  \t"), ("age", JVal.str "abc")]).lookup "message").getD
        (.str "") = .str "  \t") ∧
    pyStrip "  \t" = "" ∧
    chat (some "k") (.success "x")
        (some [("message", JVal.str "  \t"), ("age", JVal.str "abc")]) =
      .ok (⟨400, .error "No message provided."⟩, []) :=
  ⟨rfl, by decide,
    chat_blank_message_400 (some "k") (.success "x") _ "  \t" rfl (by decide)⟩

/-- Claim C4: non-empty message, age converting to an integer outside
`[1, 18]`: HTTP 400 with the error
`Please enter an age between 1 and 18.` -/
theorem chat_out_of_range_age_400 (apiKey : Option String) (up : Upstream)
    (data : List (String × JVal)) (m : String) (a : Int)
    (hm : (data.lookup "message").getD (.str "") = .str m)
    (hne : pyStrip m ≠ "")
    (ha : pyIntVal (data.lookup "age") = some a)
    (hout : a < 1 ∨ a > 18) :
    chat apiKey up (some data) =
      .ok (⟨400, .error "Please enter an age between 1 and 18."⟩, []) := by
  simp only [chat, Option.getD_some, hm, pyStripVal, ha]
  rw [if_neg hne, if_pos hout]

/-- Witness for claim C4, at the request with message `Explain ML` and
age 25 (the example of the specification). -/
theorem chat_out_of_range_age_400_witness :
    ((([("message", JVal.str "Explain ML"), ("age", JVal.num ⟨25, 1⟩)]).lookup
        "message").getD (.str "") = .str "Explain ML") ∧
    pyStrip "Explain ML" ≠ "" ∧
    pyIntVal (([("message", JVal.str "Explain ML"), ("age", JVal.num ⟨25, 1⟩)]).lookup
      "age") = some 25 ∧
    chat (some "k") (.success "x")
        (some [("message", JVal.str "Explain ML"), ("age", JVal.num ⟨25, 1⟩)]) =
      .ok (⟨400, .error "Please enter an age between 1 and 18."⟩, []) :=
  ⟨rfl, by decide, by decide,
    chat_out_of_range_age_400 (some "k") (.success "x") _ "Explain ML" 25 rfl
      (by decide) (by decide) (by decide)⟩

/-- Claim C5: non-empty message, age not convertible to an integer
(non-numeric string, `null`, or missing field): HTTP 400 with the error
`Invalid age provided.` -/
theorem chat_unconvertible_age_400 (apiKey : Option String) (up : Upstream)
    (data : List (String × JVal)) (m : String)
    (hm : (data.lookup "message").getD (.str "") = .str m)
    (hne : pyStrip m ≠ "")
    (ha : pyIntVal (data.lookup "age") = none) :
    chat apiKey up (some data) = .ok (⟨400, .error "Invalid age provided."⟩, []) := by
  simp only [chat, Option.getD_some, hm, pyStripVal, ha]
  rw [if_neg hne]

/-- Witness for claim C5, at the request with message `hi` and the
non-numeric age string `abc`. -/
theorem chat_unconvertible_age_400_witness :
    ((([("message", JVal.str "hi"), ("age", JVal.str "abc")]).lookup "message").getD
        (.str "") = .str "hi") ∧
    pyStrip "hi" ≠ "" ∧
    pyIntVal (([("message", JVal.str "hi"), ("age", JVal.str "abc")]).lookup "age") =
      none ∧
    chat (some "k") (.success "x")
        (some [("message", JVal.str "hi"), ("age", JVal.str "abc")]) =
      .ok (⟨400, .error "Invalid age provided."⟩, []) :=
  ⟨rfl, by decide, by decide,
    chat_unconvertible_age_400 (some "k") (.success "x") _ "hi" rfl (by decide)
      (by decide)⟩

/-- Claim C6: valid request (boundary ages 1 and 18 included),
configured key, upstream success with text `t`: HTTP 200 whose response
body is `t` with surrounding whitespace stripped, otherwise verbatim. -/
theorem chat_success_200_trimmed (k t : String)
    (data : List (String × JVal)) (m : String) (a : Int)
    (hm : (data.lookup "message").getD (.str "") = .str m)
    (hne : pyStrip m ≠ "")
    (ha : pyIntVal (data.lookup "age") = some a)
    (h1 : 1 ≤ a) (h2 : a ≤ 18) :
    chat (some k) (.success t) (some data) =
      .ok (⟨200, .response (pyStrip t)⟩, [completionRequestFor (pyStrip m) a]) :=
  (chat_valid_request_adapter_outcome (some k) (.success t) data m a hm hne ha h1
    h2).trans rfl

/-- Witness for claim C6, at the boundary age 1 with upstream text
carrying surrounding whitespace. -/
theorem chat_success_200_trimmed_witness :
    ((([("message", JVal.str "What is AI?"), ("age", JVal.num ⟨1, 1⟩)]).lookup
        "message").getD (.str "") = .str "What is AI?") ∧
    pyStrip "What is AI?" ≠ "" ∧
    pyIntVal (([("message", JVal.str "What is AI?"), ("age", JVal.num ⟨1, 1⟩)]).lookup
      "age") = some 1 ∧
    (1 : Int) ≤ 1 ∧ (1 : Int) ≤ 18 ∧
    chat (some "k") (.success " AI is like a smart helper. ")
        (some [("message", JVal.str "What is AI?"), ("age", JVal.num ⟨1, 1⟩)]) =
      .ok (⟨200, .response "AI is like a smart helper."⟩,
        [completionRequestFor "What is AI?" 1]) :=
  ⟨rfl, by decide, by decide, by decide, by decide,
    (chat_success_200_trimmed "k" " AI is like a smart helper. "
      [("message", JVal.str "What is AI?"), ("age", JVal.num ⟨1, 1⟩)] "What is AI?" 1 rfl
      (by decide) (by decide) (by decide) (by decide)).trans rfl⟩

/-- Claim C7: a malformed or absent JSON body
(`request.get_json(silent=True)` returning `None`, replaced by the
empty mapping) is validated as an empty mapping: the handler returns
the missing-message 400 error, for every configuration and upstream
oracle, raising nothing. -/
theorem chat_malformed_body_missing_message_400 (apiKey : Option String)
    (up : Upstream) :
    chat apiKey up none = .ok (⟨400, .error "No message provided."⟩, []) := rfl

/-- Claim C8: whenever a key is configured, `get_ai_response` attempts
exactly one outbound call: model `gpt-3.5-turbo`, a system turn holding
the age-specific prompt followed by the user message verbatim,
temperature 0.7 and `max_tokens` 512 — for every upstream outcome. -/
theorem get_ai_response_single_two_turn_call (k : String) (up : Upstream)
    (m : String) (a : Int) :
    (get_ai_response (some k) up m a).calls =
      [{ model := "gpt-3.5-turbo"
         messages := [⟨"system", system_prompt a⟩, ⟨"user", m⟩]
         temperature := ⟨7, 10⟩
         max_tokens := 512 }] := by
  cases up <;> rfl

/-- Claim C9: a request binding the message field to a non-string JSON
value (here the number 5, and `null`) makes the handler call `.strip()`
on a non-string, raising an uncaught `AttributeError` instead of
producing any HTTP reply; the missing-message 400 branch is never
reached. -/
theorem chat_nonstring_message_uncaught_attribute_error :
    chat (some "k") (.success "ok")
        (some [("message", JVal.num ⟨5, 1⟩), ("age", JVal.num ⟨7, 1⟩)]) =
      .error .attributeError ∧
    chat (some "k") (.success "ok")
        (some [("message", JVal.null), ("age", JVal.num ⟨7, 1⟩)]) =
      .error .attributeError := ⟨rfl, rfl⟩

/-- Claim C10: a fractional numeric age is not rejected: `int()`
truncates it toward zero, and whenever the truncated value lies in
`[1, 18]` the request is accepted and served, with the truncated
integer interpolated into the system prompt of the outbound call. -/
theorem chat_fractional_age_truncated_accepted (k t m : String) (x : JNum)
    (hne : pyStrip m ≠ "")
    (h1 : 1 ≤ pyTruncNum x) (h2 : pyTruncNum x ≤ 18) :
    chat (some k) (.success t)
        (some [("message", JVal.str m), ("age", JVal.num x)]) =
      .ok (⟨200, .response (pyStrip t)⟩,
        [completionRequestFor (pyStrip m) (pyTruncNum x)]) :=
  (chat_valid_request_adapter_outcome (some k) (.success t)
    [("message", JVal.str m), ("age", JVal.num x)] m (pyTruncNum x) rfl hne rfl h1
    h2).trans rfl

/-- Witness for claim C10, at age 3.5 (processed as 3); the truncations
of 3.5 to 3 and of 18.9 to 18 are checked explicitly. -/
theorem chat_fractional_age_truncated_accepted_witness :
    pyStrip "hi" ≠ "" ∧
    (1 : Int) ≤ pyTruncNum ⟨35, 10⟩ ∧ pyTruncNum ⟨35, 10⟩ ≤ 18 ∧
    pyTruncNum ⟨35, 10⟩ = 3 ∧ pyTruncNum ⟨189, 10⟩ = 18 ∧
    chat (some "k") (.success "t")
        (some [("message", JVal.str "hi"), ("age", JVal.num ⟨35, 10⟩)]) =
      .ok (⟨200, .response "t"⟩, [completionRequestFor "hi" 3]) :=
  ⟨by decide, by decide, by decide, by decide, by decide,
    (chat_fractional_age_truncated_accepted "k" "t" "hi" ⟨35, 10⟩ (by decide)
      (by decide) (by decide)).trans rfl⟩

end ParentAITutor
